import Mathlib

/-
  Verification of the crop-geometry engine of the Image-Tool repository
  (src/src/App.tsx), shallowly embedded in Lean 4.

  Display-space coordinates are real-valued in the source; they are embedded
  as rationals.  The engine logic of App.tsx is translated function by
  function below:
    - CropArea               (interface CropArea, lines 98-103)
    - AspectRatio            (interface AspectRatio, lines 105-109; the icon
                              field is display-only text and carries no logic,
                              so it is omitted)
    - aspectRatios           (lines 111-119)
    - constrainToRatio       (lines 309-331)
    - resizeRaw              (the per-handle switch of handleMouseMove,
                              lines 345-422)
    - clampBounds            (the bounds clamp of handleMouseMove,
                              lines 424-428)
    - handleMouseMoveResize  (the resize branch of handleMouseMove:
                              resizeRaw then clampBounds)
    - applyAspectRatio       (lines 450-476)
    - resetCrop              (lines 478-483)
    - handleFileUpload       (lines 148-166)
    - handleUrlSubmit        (lines 190-207)
    - loadSampleImage        (lines 209-216)
    - mapToSource            (the scale computation of updatePreview,
                              lines 260-267)
    - zoom and rotation controls (lines 780-853)

  JavaScript truthiness of selectedRatio.value (null and 0 are falsy) is
  embedded by ratioTruthy on Option Rat.
-/

/-- A crop rectangle in display space: interface CropArea of App.tsx. -/
structure CropArea where
  x : ℚ
  y : ℚ
  width : ℚ
  height : ℚ
deriving DecidableEq, Repr

/-- An aspect-ratio catalog entry: interface AspectRatio of App.tsx.
The value field is null (None) for the unconstrained Free entry.
The icon field of the source is display-only text and is omitted. -/
structure AspectRatio where
  name : String
  value : Option ℚ
deriving DecidableEq, Repr, Inhabited

/-- The fixed catalog of aspect ratios (App.tsx lines 111-119). -/
def aspectRatios : List AspectRatio :=
  [⟨"Free", none⟩, ⟨"1:1", some 1⟩, ⟨"4:3", some (4 / 3)⟩,
   ⟨"16:9", some (16 / 9)⟩, ⟨"3:2", some (3 / 2)⟩, ⟨"2:3", some (2 / 3)⟩,
   ⟨"9:16", some (9 / 16)⟩]

/-- The eight directional resize handles (type HandlePosition of App.tsx). -/
inductive HandlePosition where
  | nw | n | ne | e | se | s | sw | w
deriving DecidableEq, Repr

/-- JavaScript truthiness of a nullable numeric ratio value:
null and 0 are falsy, every other number is truthy. -/
def ratioTruthy : Option ℚ → Bool
  | none => false
  | some q => q != 0

/-- The fixed container width of the editor (App.tsx line 144). -/
def containerWidth : ℚ := 500

/-- The fixed container height of the editor (App.tsx line 145). -/
def containerHeight : ℚ := 375

/-- The minimum crop size used by handleMouseMove (App.tsx line 338). -/
def minSize : ℚ := 50

/-- constrainToRatio of App.tsx (lines 309-331): couples width and height
under the selected ratio.  Horizontal handles derive height from width,
vertical handles derive width from height, and corner handles let the
dimension that changed more from the gesture-start rectangle drive. -/
def constrainToRatio (ratioValue : Option ℚ) (initialCrop : CropArea)
    (width height : ℚ) (handle : HandlePosition) : ℚ × ℚ :=
  match ratioValue with
  | none => (width, height)
  | some ratio =>
    if ratio = 0 then (width, height)
    else if handle = .e ∨ handle = .w then
      (width, width / ratio)
    else if handle = .n ∨ handle = .s then
      (height * ratio, height)
    else if |width - initialCrop.width| > |height - initialCrop.height| then
      (width, width / ratio)
    else
      (height * ratio, height)

/-- The per-handle switch of handleMouseMove (App.tsx lines 345-422):
computes the candidate rectangle for a resize gesture, before the bounds
clamp.  deltaX and deltaY are the pointer deltas since gesture start;
initialCrop is the rectangle captured at gesture start. -/
def resizeRaw (dragType : HandlePosition) (ratioValue : Option ℚ)
    (initialCrop : CropArea) (deltaX deltaY : ℚ) : CropArea :=
  match dragType with
  | .nw =>
      let w0 := max minSize (initialCrop.width - deltaX)
      let h0 := max minSize (initialCrop.height - deltaY)
      let c := constrainToRatio ratioValue initialCrop w0 h0 .nw
      if ratioTruthy ratioValue then
        { x := initialCrop.x + initialCrop.width - c.1
          y := initialCrop.y + initialCrop.height - c.2
          width := c.1, height := c.2 }
      else
        { x := initialCrop.x + initialCrop.width - w0
          y := initialCrop.y + initialCrop.height - h0
          width := w0, height := h0 }
  | .n =>
      let h0 := max minSize (initialCrop.height - deltaY)
      let c := constrainToRatio ratioValue initialCrop initialCrop.width h0 .n
      if ratioTruthy ratioValue then
        { x := initialCrop.x + (initialCrop.width - c.1) / 2
          y := initialCrop.y + initialCrop.height - h0
          width := c.1, height := h0 }
      else
        { x := initialCrop.x
          y := initialCrop.y + initialCrop.height - h0
          width := initialCrop.width, height := h0 }
  | .ne =>
      let w0 := max minSize (initialCrop.width + deltaX)
      let h0 := max minSize (initialCrop.height - deltaY)
      let c := constrainToRatio ratioValue initialCrop w0 h0 .ne
      if ratioTruthy ratioValue then
        { x := initialCrop.x
          y := initialCrop.y + initialCrop.height - c.2
          width := c.1, height := c.2 }
      else
        { x := initialCrop.x
          y := initialCrop.y + initialCrop.height - h0
          width := w0, height := h0 }
  | .e =>
      let w0 := max minSize (initialCrop.width + deltaX)
      let c := constrainToRatio ratioValue initialCrop w0 initialCrop.height .e
      if ratioTruthy ratioValue then
        { x := initialCrop.x
          y := initialCrop.y + (initialCrop.height - c.2) / 2
          width := w0, height := c.2 }
      else
        { x := initialCrop.x, y := initialCrop.y
          width := w0, height := initialCrop.height }
  | .se =>
      let w0 := max minSize (initialCrop.width + deltaX)
      let h0 := max minSize (initialCrop.height + deltaY)
      let c := constrainToRatio ratioValue initialCrop w0 h0 .se
      if ratioTruthy ratioValue then
        { x := initialCrop.x, y := initialCrop.y, width := c.1, height := c.2 }
      else
        { x := initialCrop.x, y := initialCrop.y, width := w0, height := h0 }
  | .s =>
      let h0 := max minSize (initialCrop.height + deltaY)
      let c := constrainToRatio ratioValue initialCrop initialCrop.width h0 .s
      if ratioTruthy ratioValue then
        { x := initialCrop.x + (initialCrop.width - c.1) / 2
          y := initialCrop.y
          width := c.1, height := h0 }
      else
        { x := initialCrop.x, y := initialCrop.y
          width := initialCrop.width, height := h0 }
  | .sw =>
      let w0 := max minSize (initialCrop.width - deltaX)
      let h0 := max minSize (initialCrop.height + deltaY)
      let c := constrainToRatio ratioValue initialCrop w0 h0 .sw
      if ratioTruthy ratioValue then
        { x := initialCrop.x + initialCrop.width - c.1
          y := initialCrop.y
          width := c.1, height := c.2 }
      else
        { x := initialCrop.x + initialCrop.width - w0
          y := initialCrop.y
          width := w0, height := h0 }
  | .w =>
      let w0 := max minSize (initialCrop.width - deltaX)
      let c := constrainToRatio ratioValue initialCrop w0 initialCrop.height .w
      if ratioTruthy ratioValue then
        { x := initialCrop.x + initialCrop.width - w0
          y := initialCrop.y + (initialCrop.height - c.2) / 2
          width := w0, height := c.2 }
      else
        { x := initialCrop.x + initialCrop.width - w0
          y := initialCrop.y
          width := w0, height := initialCrop.height }

/-- The final bounds clamp of handleMouseMove (App.tsx lines 424-428):
position is clamped into the container minus minSize, then the size is
clamped to what remains of the container. -/
def clampBounds (c : CropArea) : CropArea :=
  let x := max 0 (min (containerWidth - minSize) c.x)
  let y := max 0 (min (containerHeight - minSize) c.y)
  { x := x, y := y
    width := min c.width (containerWidth - x)
    height := min c.height (containerHeight - y) }

/-- The resize branch of handleMouseMove (App.tsx lines 344-431):
per-handle candidate computation followed by the bounds clamp. -/
def handleMouseMoveResize (dragType : HandlePosition) (ratioValue : Option ℚ)
    (initialCrop : CropArea) (deltaX deltaY : ℚ) : CropArea :=
  clampBounds (resizeRaw dragType ratioValue initialCrop deltaX deltaY)

/-- applyAspectRatio of App.tsx (lines 450-476), restricted to its effect on
the crop rectangle.  With a truthy ratio: keep the current width, derive the
height, shrink to 80 percent of the container dimension whenever a derived
dimension exceeds the corresponding full container dimension, re-center on
the old center and clamp the position.  With a falsy ratio the rectangle is
left unchanged. -/
def applyAspectRatio (ratioValue : Option ℚ) (cropArea : CropArea) : CropArea :=
  match ratioValue with
  | none => cropArea
  | some ratio =>
    if ratio = 0 then cropArea
    else
      let currentCenterX := cropArea.x + cropArea.width / 2
      let currentCenterY := cropArea.y + cropArea.height / 2
      let wA := cropArea.width
      let hA := wA / ratio
      let wB := if hA > containerHeight then containerHeight * (4 / 5) * ratio else wA
      let hB := if hA > containerHeight then containerHeight * (4 / 5) else hA
      let wC := if wB > containerWidth then containerWidth * (4 / 5) else wB
      let hC := if wB > containerWidth then containerWidth * (4 / 5) / ratio else hB
      let newX := max 0 (min (containerWidth - wC) (currentCenterX - wC / 2))
      let newY := max 0 (min (containerHeight - hC) (currentCenterY - hC / 2))
      { x := newX, y := newY, width := wC, height := hC }

/-- The Rectangle invariants of the specification data model:
minimum size, non-negative position, and containment in the container. -/
def RectInvariant (c : CropArea) : Prop :=
  minSize ≤ c.width ∧ minSize ≤ c.height ∧ 0 ≤ c.x ∧ 0 ≤ c.y ∧
  c.x + c.width ≤ containerWidth ∧ c.y + c.height ≤ containerHeight

instance (c : CropArea) : Decidable (RectInvariant c) := by
  unfold RectInvariant; infer_instance

/-- The scale computation of updatePreview (App.tsx lines 260-267): maps the
display-space crop rectangle to source-image pixel coordinates.  Returns
(sourceX, sourceY, sourceWidth, sourceHeight). -/
def mapToSource (imgWidth imgHeight zoom : ℚ) (cropArea : CropArea) :
    ℚ × ℚ × ℚ × ℚ :=
  let scaleX := imgWidth / (containerWidth * zoom)
  let scaleY := imgHeight / (containerHeight * zoom)
  (cropArea.x * scaleX, cropArea.y * scaleY,
   cropArea.width * scaleX, cropArea.height * scaleY)

/-- The session state of the editor: the React state cells of the App
component that the load, reset and crop operations touch (App.tsx
lines 124-134). -/
structure SessionState where
  imageUrl : Option String
  imageName : String
  imageError : Option String
  urlInput : String
  showUrlInput : Bool
  zoom : ℚ
  rotation : ℤ
  cropArea : CropArea
  selectedRatio : AspectRatio
deriving DecidableEq, Repr

/-- resetCrop of App.tsx (lines 478-483): restores the default centered crop
rectangle, zoom 1, rotation 0 and the first catalog entry (Free). -/
def resetCrop (s : SessionState) : SessionState :=
  { s with cropArea := ⟨100, 75, 300, 225⟩, zoom := 1, rotation := 0,
           selectedRatio := aspectRatios.headI }

/-- Outcome of the asynchronous FileReader of handleFileUpload: either the
decoded data URL or a read failure. -/
inductive FileReadResult where
  | success (dataUrl : String)
  | failure
deriving DecidableEq, Repr

/-- The MIME-type guard of handleFileUpload (App.tsx line 149,
file.type.startsWith of JS), modelled on the character data of the string
because the library function is opaque to kernel evaluation. -/
def typeStartsWithImage (fileType : String) : Bool :=
  "image/".data.isPrefixOf fileType.data

/-- handleFileUpload of App.tsx (lines 148-166) as a state transformer.
A non-image MIME type only sets the error message; a read failure only sets
the error message; a successful read installs the image and resets the crop
session. -/
def handleFileUpload (s : SessionState) (fileType fileName : String)
    (readResult : FileReadResult) : SessionState :=
  if ¬ typeStartsWithImage fileType then
    { s with imageError := some "Please upload an image file (JPG, PNG, GIF, WebP)" }
  else
    match readResult with
    | .success result =>
        resetCrop { s with imageError := none, imageUrl := some result,
                           imageName := fileName }
    | .failure =>
        { s with imageError := some "Failed to read file" }

/-- The blank-URL guard of handleUrlSubmit (App.tsx line 191): the JS check
of !urlInput.trim() is true exactly when the URL consists of whitespace
only.  Modelled directly as that character test because the trim library
function is opaque to kernel evaluation. -/
def urlInputBlank (s : String) : Bool :=
  s.data.all Char.isWhitespace

/-- handleUrlSubmit of App.tsx (lines 190-207) as a state transformer.
loadOk tells whether the probing Image element fired onload or onerror.
A blank URL is ignored; a load failure only sets the error message; a
successful load installs the URL and resets the crop session. -/
def handleUrlSubmit (s : SessionState) (loadOk : Bool) : SessionState :=
  if urlInputBlank s.urlInput then s
  else if loadOk then
    resetCrop { s with imageError := none, imageUrl := some s.urlInput,
                       imageName := "Image from URL", showUrlInput := false,
                       urlInput := "" }
  else
    { s with imageError := some "Failed to load image from URL. Make sure the URL is correct and the image allows cross-origin access." }

/-- loadSampleImage of App.tsx (lines 209-216): the generated sample data URL
is taken as a parameter because canvas rendering is outside the model;
generation itself never fails. -/
def loadSampleImage (s : SessionState) (sampleUrl : String) : SessionState :=
  resetCrop { s with imageUrl := some sampleUrl,
                     imageName := "Sample Geometric Image", imageError := none }

/-- The zoom minus button of App.tsx (line 781). -/
def zoomOutClick (zoom : ℚ) : ℚ := max (1 / 2) (zoom - 1 / 10)

/-- The zoom plus button of App.tsx (line 796). -/
def zoomInClick (zoom : ℚ) : ℚ := min 3 (zoom + 1 / 10)

/-- The zoom slider of App.tsx (lines 786-794): the browser constrains the
emitted value to the min 0.5, max 3 range of the input element; the handler
stores it unchanged. -/
def zoomSliderChange (v : ℚ) : ℚ := v

/-- The counter-clockwise quick-rotate button of App.tsx (line 814):
subtracts 90 degrees with no clamping. -/
def rotateCCWClick (rotation : ℤ) : ℤ := rotation - 90

/-- The clockwise quick-rotate button of App.tsx (line 829):
adds 90 degrees with no clamping. -/
def rotateCWClick (rotation : ℤ) : ℤ := rotation + 90

/-- The rotation slider of App.tsx (lines 819-827): the browser constrains
the emitted value to the min -180, max 180 range of the input element; the
handler stores it unchanged. -/
def rotationSliderChange (v : ℤ) : ℤ := v

/-- The preset-angle buttons of App.tsx (line 840). -/
def rotationPresetAngles : List ℤ := [-45, 0, 45, 90, 180]

/-- A preset-angle button click of App.tsx (line 843): stores the angle of
the clicked preset unchanged. -/
def rotationPresetClick (deg : ℤ) : ℤ := deg

/-- The fields of SessionState that a failed load must leave unchanged:
the crop rectangle, zoom, rotation, selected ratio and loaded image. -/
def preservesEditState (a b : SessionState) : Prop :=
  a.cropArea = b.cropArea ∧ a.zoom = b.zoom ∧ a.rotation = b.rotation ∧
  a.selectedRatio = b.selectedRatio ∧ a.imageUrl = b.imageUrl

/-- Modelled from the amended specification of section 4.2: the width and
height derivation of ratio retargeting, with the shrink triggered when a
derived dimension exceeds the FULL container dimension and rescaling to
80 percent of it.  Used solely as the comparison point of the refinement
theorem about applyAspectRatio. -/
def retargetDimsAmendedSpec (ratio width : ℚ) : ℚ × ℚ :=
  let h := width / ratio
  let w1 := if h > containerHeight then containerHeight * (4 / 5) * ratio else width
  let h1 := if h > containerHeight then containerHeight * (4 / 5) else h
  let w2 := if w1 > containerWidth then containerWidth * (4 / 5) else w1
  let h2 := if w1 > containerWidth then containerWidth * (4 / 5) / ratio else h1
  (w2, h2)

/-
  Helper lemmas shared by the claim theorems.
-/

theorem ratioTruthy_none : ratioTruthy none = false := rfl

theorem ratioTruthy_some {r : ℚ} (hr : r ≠ 0) : ratioTruthy (some r) = true := by
  simp [ratioTruthy, hr]

theorem clampBounds_mem (c : CropArea) :
    0 ≤ (clampBounds c).x ∧ 0 ≤ (clampBounds c).y ∧
    (clampBounds c).x + (clampBounds c).width ≤ containerWidth ∧
    (clampBounds c).y + (clampBounds c).height ≤ containerHeight := by
  simp only [clampBounds]
  refine ⟨le_max_left 0 _, le_max_left 0 _, ?_, ?_⟩
  · linarith [min_le_right c.width
      (containerWidth - max 0 (min (containerWidth - minSize) c.x))]
  · linarith [min_le_right c.height
      (containerHeight - max 0 (min (containerHeight - minSize) c.y))]

theorem clampBounds_x_le (c : CropArea) :
    (clampBounds c).x ≤ containerWidth - minSize := by
  simp only [clampBounds]
  exact max_le (by norm_num [containerWidth, minSize]) (min_le_left _ _)

theorem clampBounds_y_le (c : CropArea) :
    (clampBounds c).y ≤ containerHeight - minSize := by
  simp only [clampBounds]
  exact max_le (by norm_num [containerHeight, minSize]) (min_le_left _ _)

theorem clampBounds_minSize (c : CropArea) (hw : minSize ≤ c.width)
    (hh : minSize ≤ c.height) :
    minSize ≤ (clampBounds c).width ∧ minSize ≤ (clampBounds c).height := by
  have hx := clampBounds_x_le c
  have hy := clampBounds_y_le c
  simp only [clampBounds] at hx hy ⊢
  exact ⟨le_min hw (by linarith), le_min hh (by linarith)⟩

theorem resizeRaw_none_dims (dragType : HandlePosition) (initialCrop : CropArea)
    (deltaX deltaY : ℚ) (hw : minSize ≤ initialCrop.width)
    (hh : minSize ≤ initialCrop.height) :
    minSize ≤ (resizeRaw dragType none initialCrop deltaX deltaY).width ∧
    minSize ≤ (resizeRaw dragType none initialCrop deltaX deltaY).height := by
  cases dragType <;>
    simp only [resizeRaw, ratioTruthy_none, Bool.false_eq_true, if_false] <;>
    exact ⟨by first | exact le_max_left _ _ | exact hw,
           by first | exact le_max_left _ _ | exact hh⟩

theorem clampPos_mem (a t : ℚ) (ha : 0 ≤ a) :
    0 ≤ max 0 (min a t) ∧ max 0 (min a t) ≤ a :=
  ⟨le_max_left _ _, max_le ha (min_le_left _ _)⟩

theorem applyAspectRatio_some_props (r : ℚ) (c : CropArea) (hr : 0 < r)
    (hwc : c.width ≤ containerWidth) :
    (applyAspectRatio (some r) c).width = (applyAspectRatio (some r) c).height * r ∧
    (applyAspectRatio (some r) c).width ≤ containerWidth ∧
    (applyAspectRatio (some r) c).height ≤ containerHeight ∧
    0 ≤ (applyAspectRatio (some r) c).x ∧
    (applyAspectRatio (some r) c).x ≤ containerWidth - (applyAspectRatio (some r) c).width ∧
    0 ≤ (applyAspectRatio (some r) c).y ∧
    (applyAspectRatio (some r) c).y ≤ containerHeight - (applyAspectRatio (some r) c).height := by
  have hr0 : r ≠ 0 := ne_of_gt hr
  simp only [applyAspectRatio, if_neg hr0]
  split_ifs with h1 h2 h3
  · -- height shrink triggered, then width shrink triggered
    have hrgt : containerHeight * (4 / 5) * r > containerWidth := h2
    have h53 : (5 : ℚ) / 3 < r := by
      norm_num [containerHeight, containerWidth] at hrgt; linarith
    have hhb : containerWidth * (4 / 5) / r ≤ containerHeight := by
      rw [div_le_iff₀ hr]
      norm_num [containerHeight, containerWidth]; nlinarith
    refine ⟨(div_mul_cancel₀ _ hr0).symm, by norm_num [containerWidth], hhb, ?_, ?_, ?_, ?_⟩
    · exact (clampPos_mem _ _ (by norm_num [containerWidth])).1
    · exact (clampPos_mem _ _ (by norm_num [containerWidth])).2
    · exact (clampPos_mem _ _ (by linarith [hhb])).1
    · exact (clampPos_mem _ _ (by linarith [hhb])).2
  · -- height shrink triggered, width already fits
    have hwb : containerHeight * (4 / 5) * r ≤ containerWidth := not_lt.mp h2
    refine ⟨by trivial, hwb, by norm_num [containerHeight], ?_, ?_, ?_, ?_⟩
    · exact (clampPos_mem _ _ (by linarith)).1
    · exact (clampPos_mem _ _ (by linarith)).2
    · exact (clampPos_mem _ _ (by norm_num [containerHeight])).1
    · exact (clampPos_mem _ _ (by norm_num [containerHeight])).2
  · -- no height shrink, width shrink triggered: impossible given width ≤ container
    exact absurd h3 (not_lt.mpr hwc)
  · -- neither shrink triggered
    have hhb : c.width / r ≤ containerHeight := not_lt.mp h1
    refine ⟨(div_mul_cancel₀ _ hr0).symm, hwc, hhb, ?_, ?_, ?_, ?_⟩
    · exact (clampPos_mem _ _ (by linarith)).1
    · exact (clampPos_mem _ _ (by linarith)).2
    · exact (clampPos_mem _ _ (by linarith)).1
    · exact (clampPos_mem _ _ (by linarith)).2

theorem applyAspectRatio_fixedPoint (r : ℚ) (c : CropArea) (hr : 0 < r)
    (hwr : c.width = c.height * r)
    (hwc : c.width ≤ containerWidth) (hhc : c.height ≤ containerHeight)
    (hx0 : 0 ≤ c.x) (hx1 : c.x ≤ containerWidth - c.width)
    (hy0 : 0 ≤ c.y) (hy1 : c.y ≤ containerHeight - c.height) :
    applyAspectRatio (some r) c = c := by
  have hr0 : r ≠ 0 := ne_of_gt hr
  have hdiv : c.width / r = c.height := by
    rw [hwr, mul_div_cancel_right₀ _ hr0]
  obtain ⟨cx, cy, cw, ch⟩ := c
  simp only at hdiv hwr hwc hhc hx0 hx1 hy0 hy1
  simp only [applyAspectRatio, if_neg hr0, hdiv]
  rw [if_neg (not_lt.mpr hhc), if_neg (not_lt.mpr hhc),
      if_neg (not_lt.mpr hwc), if_neg (not_lt.mpr hwc)]
  simp only [CropArea.mk.injEq]
  refine ⟨?_, ?_, by trivial, by trivial⟩
  · rw [add_sub_cancel_right, min_eq_right hx1, max_eq_right hx0]
  · rw [add_sub_cancel_right, min_eq_right hy1, max_eq_right hy0]

/-
  Claim theorems.
-/

/-- C5: for the southeast handle with the unconstrained Free ratio, the
resize computation yields width = max(minSize, startWidth + dx) and
height = max(minSize, startHeight + dy) with the top-left anchor fixed,
before bounds clamping; and the concrete drag by (50, -20) from the default
300x225 rectangle at (100, 75) in the 500x375 container yields exactly the
rectangle (100, 75, 350, 205) after clamping. -/
theorem claim_C5_southeast_free_drag :
    (∀ (initialCrop : CropArea) (deltaX deltaY : ℚ),
       resizeRaw .se none initialCrop deltaX deltaY =
         ⟨initialCrop.x, initialCrop.y,
          max minSize (initialCrop.width + deltaX),
          max minSize (initialCrop.height + deltaY)⟩) ∧
    handleMouseMoveResize .se none ⟨100, 75, 300, 225⟩ 50 (-20) =
      ⟨100, 75, 350, 205⟩ := by
  constructor
  · intro initialCrop deltaX deltaY
    simp [resizeRaw, ratioTruthy_none]
  · simp +decide only [handleMouseMoveResize, resizeRaw, clampBounds,
      constrainToRatio, ratioTruthy, containerWidth, containerHeight, minSize]
    norm_num [min_def, max_def]

/-- C9: mapToSource round-trips at identity scale: with zoom 1 and the
source-image pixel size equal to the 500x375 container size, the computed
source region is numerically equal to the crop rectangle. -/
theorem claim_C9_mapToSource_roundtrip (c : CropArea) :
    mapToSource containerWidth containerHeight 1 c =
      (c.x, c.y, c.width, c.height) := by
  simp only [mapToSource]
  norm_num [containerWidth, containerHeight]

/-- C1 counterexample: the default rectangle satisfies the Rectangle
invariants, yet dragging the east handle far left under the constrained
16:9 ratio produces a rectangle of height 225/8 = 28.125, below
minSize = 50: the minimum-size part of the claimed invariant fails for
rectangles produced by updateGesture under a constrained ratio. -/
theorem claim_C1_counterexample :
    RectInvariant ⟨100, 75, 300, 225⟩ ∧
    (handleMouseMoveResize .e (some (16 / 9)) ⟨100, 75, 300, 225⟩ (-1000) 0).height
      = 225 / 8 ∧
    ¬ minSize ≤ (225 / 8 : ℚ) := by
  refine ⟨?_, ?_, ?_⟩
  · simp only [RectInvariant, containerWidth, containerHeight, minSize]
    norm_num
  · simp +decide only [handleMouseMoveResize, resizeRaw, clampBounds,
      constrainToRatio, ratioTruthy, containerWidth, containerHeight, minSize]
    norm_num [min_def, max_def]
  · norm_num [minSize]

/-- C1 amended: every rectangle returned by the resize path of updateGesture
satisfies x ≥ 0, y ≥ 0, x + width ≤ containerWidth and
y + height ≤ containerHeight, for every handle, ratio and pointer delta;
when the selected ratio is unconstrained (Free) the full Rectangle invariant
including the minimum sizes is preserved; and applyAspectRatio with a
constrained positive ratio on an invariant-satisfying rectangle satisfies
the four position and containment inequalities.  Under a constrained ratio
the minimum-size bounds can fail, as the counterexample shows. -/
theorem claim_C1_amended :
    (∀ (dragType : HandlePosition) (ratioValue : Option ℚ) (initialCrop : CropArea)
       (deltaX deltaY : ℚ),
       0 ≤ (handleMouseMoveResize dragType ratioValue initialCrop deltaX deltaY).x ∧
       0 ≤ (handleMouseMoveResize dragType ratioValue initialCrop deltaX deltaY).y ∧
       (handleMouseMoveResize dragType ratioValue initialCrop deltaX deltaY).x +
         (handleMouseMoveResize dragType ratioValue initialCrop deltaX deltaY).width
           ≤ containerWidth ∧
       (handleMouseMoveResize dragType ratioValue initialCrop deltaX deltaY).y +
         (handleMouseMoveResize dragType ratioValue initialCrop deltaX deltaY).height
           ≤ containerHeight) ∧
    (∀ (dragType : HandlePosition) (initialCrop : CropArea) (deltaX deltaY : ℚ),
       RectInvariant initialCrop →
       RectInvariant (handleMouseMoveResize dragType none initialCrop deltaX deltaY)) ∧
    (∀ (r : ℚ) (c : CropArea), 0 < r → RectInvariant c →
       0 ≤ (applyAspectRatio (some r) c).x ∧
       0 ≤ (applyAspectRatio (some r) c).y ∧
       (applyAspectRatio (some r) c).x + (applyAspectRatio (some r) c).width
         ≤ containerWidth ∧
       (applyAspectRatio (some r) c).y + (applyAspectRatio (some r) c).height
         ≤ containerHeight) := by
  refine ⟨?_, ?_, ?_⟩
  · intro dragType ratioValue initialCrop deltaX deltaY
    exact clampBounds_mem _
  · intro dragType initialCrop deltaX deltaY hinv
    obtain ⟨hw, hh, _, _, _, _⟩ := hinv
    obtain ⟨hw2, hh2⟩ := resizeRaw_none_dims dragType initialCrop deltaX deltaY hw hh
    obtain ⟨hws, hhs⟩ := clampBounds_minSize _ hw2 hh2
    obtain ⟨h1, h2, h3, h4⟩ :=
      clampBounds_mem (resizeRaw dragType none initialCrop deltaX deltaY)
    exact ⟨hws, hhs, h1, h2, h3, h4⟩
  · intro r c hr hinv
    obtain ⟨_, _, hx, _, hxw, _⟩ := hinv
    have hwc : c.width ≤ containerWidth := by linarith
    obtain ⟨_, _, _, p4, p5, p6, p7⟩ := applyAspectRatio_some_props r c hr hwc
    exact ⟨p4, p6, by linarith, by linarith⟩

/-- C1 amended, witness: the amended theorem applied to the concrete Free
drag of the C5 scenario and to the concrete 1:1 retargeting of the default
rectangle. -/
theorem claim_C1_amended_witness :
    RectInvariant (handleMouseMoveResize .se none ⟨100, 75, 300, 225⟩ 50 (-20)) ∧
    0 ≤ (applyAspectRatio (some 1) ⟨100, 75, 300, 225⟩).x :=
  ⟨claim_C1_amended.2.1 .se ⟨100, 75, 300, 225⟩ 50 (-20)
     (by simp only [RectInvariant, containerWidth, containerHeight, minSize]; norm_num),
   (claim_C1_amended.2.2 1 ⟨100, 75, 300, 225⟩ (by norm_num)
     (by simp only [RectInvariant, containerWidth, containerHeight, minSize]; norm_num)).1⟩

/-- C4 counterexample: with the constrained ratio 1 active, dragging the
southeast handle far right from the default rectangle gives, after the
bounds clamp, a 400 x 300 rectangle; the distance of its width-to-height
ratio from the selected ratio 1 is 1/3, so no small epsilon bounds it. -/
theorem claim_C4_counterexample :
    RectInvariant ⟨100, 75, 300, 225⟩ ∧
    handleMouseMoveResize .se (some 1) ⟨100, 75, 300, 225⟩ 500 0 =
      ⟨100, 75, 400, 300⟩ ∧
    |(400 : ℚ) / 300 - 1| = 1 / 3 := by
  refine ⟨?_, ?_, ?_⟩
  · simp only [RectInvariant, containerWidth, containerHeight, minSize]
    norm_num
  · simp +decide only [handleMouseMoveResize, resizeRaw, clampBounds,
      constrainToRatio, ratioTruthy, containerWidth, containerHeight, minSize]
    norm_num [min_def, max_def, abs]
  · rw [abs_of_nonneg (by norm_num)]
    norm_num

/-- C4 amended: under a constrained nonzero ratio r, the resize computation
of updateGesture satisfies width = height * r exactly before the bounds
clamp, for every handle and pointer delta; and applyAspectRatio with a
positive constrained ratio on a rectangle fitting the container width
yields width = height * r exactly.  The final bounds clamp of updateGesture
can break the ratio, as the counterexample shows. -/
theorem claim_C4_amended :
    (∀ (dragType : HandlePosition) (r : ℚ) (initialCrop : CropArea)
       (deltaX deltaY : ℚ), r ≠ 0 →
       (resizeRaw dragType (some r) initialCrop deltaX deltaY).width =
         (resizeRaw dragType (some r) initialCrop deltaX deltaY).height * r) ∧
    (∀ (r : ℚ) (c : CropArea), 0 < r → c.width ≤ containerWidth →
       (applyAspectRatio (some r) c).width =
         (applyAspectRatio (some r) c).height * r) := by
  constructor
  · intro dragType r initialCrop deltaX deltaY hr
    have ht := ratioTruthy_some hr
    cases dragType <;>
      simp +decide only [resizeRaw, constrainToRatio, ht, if_neg hr, if_true] <;>
      (try split_ifs) <;>
      first
        | rfl
        | contradiction
        | exact (div_mul_cancel₀ _ hr).symm
  · intro r c hr hwc
    exact (applyAspectRatio_some_props r c hr hwc).1

/-- C4 amended, witness: the amended theorem applied to the concrete
southeast drag and the concrete 1:1 retargeting of the default rectangle. -/
theorem claim_C4_amended_witness :
    (resizeRaw .se (some 1) ⟨100, 75, 300, 225⟩ 50 0).width =
      (resizeRaw .se (some 1) ⟨100, 75, 300, 225⟩ 50 0).height * 1 ∧
    (applyAspectRatio (some 1) ⟨100, 75, 300, 225⟩).width =
      (applyAspectRatio (some 1) ⟨100, 75, 300, 225⟩).height * 1 :=
  ⟨claim_C4_amended.1 .se 1 ⟨100, 75, 300, 225⟩ 50 0 (by norm_num),
   claim_C4_amended.2 1 ⟨100, 75, 300, 225⟩ (by norm_num)
     (by norm_num [containerWidth])⟩

/-- C2 counterexample: from the rectangle (75, 10, 350, 350), which
satisfies the Rectangle invariants, retargeting to the constrained ratio 1
derives height 350, which exceeds 80 percent of the container height
(0.8 * 375 = 300); the claim then requires the result height to be rescaled
to 300, but the code keeps height 350 because its shrink test compares the
derived height against the full container height 375. -/
theorem claim_C2_counterexample :
    RectInvariant ⟨75, 10, 350, 350⟩ ∧
    (350 : ℚ) / 1 > containerHeight * (4 / 5) ∧
    (applyAspectRatio (some 1) ⟨75, 10, 350, 350⟩).height = 350 ∧
    (350 : ℚ) ≠ containerHeight * (4 / 5) := by
  refine ⟨?_, ?_, ?_, ?_⟩
  · simp only [RectInvariant, containerWidth, containerHeight, minSize]
    norm_num
  · norm_num [containerHeight]
  · simp only [applyAspectRatio, containerWidth, containerHeight]
    norm_num [min_def, max_def]
  · norm_num [containerHeight]

/-- C2 amended: applyAspectRatio with a constrained nonzero ratio preserves
the current width and derives height = width / ratio; if the derived height
exceeds the FULL container height, both dimensions are rescaled so height
becomes 80 percent of the container height (preserving the ratio), with the
symmetric check of the resulting width against the FULL container width
(rescaling the width to 80 percent of it).  Stated as equality of the code
result with the dimension derivation modelled from the amended wording. -/
theorem claim_C2_amended (r : ℚ) (c : CropArea) (hr : r ≠ 0) :
    ((applyAspectRatio (some r) c).width, (applyAspectRatio (some r) c).height)
      = retargetDimsAmendedSpec r c.width := by
  simp only [applyAspectRatio, retargetDimsAmendedSpec, if_neg hr]

/-- C2 amended, witness: the amended theorem applied to the default
rectangle and the ratio 1. -/
theorem claim_C2_amended_witness :
    ((applyAspectRatio (some 1) ⟨100, 75, 300, 225⟩).width,
     (applyAspectRatio (some 1) ⟨100, 75, 300, 225⟩).height)
      = retargetDimsAmendedSpec 1 (CropArea.mk 100 75 300 225).width :=
  claim_C2_amended 1 ⟨100, 75, 300, 225⟩ (by norm_num)

/-- C3 counterexample: the rotation value 180 lies inside the claimed range
[-180, 180], yet the clockwise quick-rotate button takes it to 270, outside
the range: the quick-rotate buttons do not preserve the TransformState
rotation range. -/
theorem claim_C3_counterexample :
    (-180 : ℤ) ≤ 180 ∧ (180 : ℤ) ≤ 180 ∧
    rotateCWClick 180 = 270 ∧ ¬ ((270 : ℤ) ≤ 180) := by
  refine ⟨by norm_num, by norm_num, by norm_num [rotateCWClick], by norm_num⟩

/-- C3 amended: the zoom buttons and the zoom slider preserve the zoom range
[1/2, 3]; the rotation slider and the preset-angle buttons preserve the
rotation range [-180, 180]; the quick-rotate buttons add or subtract 90
without clamping, so they stay within [-180, 180] exactly when the starting
rotation leaves room (at most 90 for the plus button, at least -90 for the
minus button).  From rotation 180 the plus button leaves the range, as the
counterexample shows. -/
theorem claim_C3_amended :
    (∀ z : ℚ, 1 / 2 ≤ z → z ≤ 3 →
       1 / 2 ≤ zoomOutClick z ∧ zoomOutClick z ≤ 3 ∧
       1 / 2 ≤ zoomInClick z ∧ zoomInClick z ≤ 3) ∧
    (∀ v : ℚ, 1 / 2 ≤ v → v ≤ 3 →
       1 / 2 ≤ zoomSliderChange v ∧ zoomSliderChange v ≤ 3) ∧
    (∀ v : ℤ, -180 ≤ v → v ≤ 180 →
       -180 ≤ rotationSliderChange v ∧ rotationSliderChange v ≤ 180) ∧
    (∀ d : ℤ, -180 ≤ d → d ≤ 90 →
       -180 ≤ rotateCWClick d ∧ rotateCWClick d ≤ 180) ∧
    (∀ d : ℤ, -90 ≤ d → d ≤ 180 →
       -180 ≤ rotateCCWClick d ∧ rotateCCWClick d ≤ 180) ∧
    (∀ d ∈ rotationPresetAngles,
       -180 ≤ rotationPresetClick d ∧ rotationPresetClick d ≤ 180) := by
  refine ⟨?_, ?_, ?_, ?_, ?_, ?_⟩
  · intro z h1 h2
    simp only [zoomOutClick, zoomInClick]
    refine ⟨le_max_left _ _, max_le (by norm_num) (by linarith),
            le_min (by norm_num) (by linarith), min_le_left _ _⟩
  · intro v h1 h2
    exact ⟨h1, h2⟩
  · intro v h1 h2
    exact ⟨h1, h2⟩
  · intro d h1 h2
    simp only [rotateCWClick]
    omega
  · intro d h1 h2
    simp only [rotateCCWClick]
    omega
  · intro d hd
    fin_cases hd <;> simp [rotationPresetClick]

/-- C3 amended, witness: the amended theorem applied to zoom 1 and to the
quick-rotate buttons at rotation 0. -/
theorem claim_C3_amended_witness :
    (1 / 2 ≤ zoomOutClick 1 ∧ zoomOutClick 1 ≤ 3 ∧
     1 / 2 ≤ zoomInClick 1 ∧ zoomInClick 1 ≤ 3) ∧
    (-180 ≤ rotateCWClick 0 ∧ rotateCWClick 0 ≤ 180) ∧
    (-180 ≤ rotateCCWClick 0 ∧ rotateCCWClick 0 ≤ 180) :=
  ⟨claim_C3_amended.1 1 (by norm_num) (by norm_num),
   claim_C3_amended.2.2.2.1 0 (by norm_num) (by norm_num),
   claim_C3_amended.2.2.2.2.1 0 (by norm_num) (by norm_num)⟩

/-- C10: for the east and west edge handles under a constrained nonzero
ratio, updateGesture recenters the rectangle vertically on its pre-drag
vertical center: whenever the recentered position startY +
(startHeight - newHeight) / 2 with newHeight = newWidth / ratio lies inside
the clamp range, the resulting y equals exactly that value, with
newWidth = max(minSize, startWidth + dx) for east and
max(minSize, startWidth - dx) for west. -/
theorem claim_C10_east_west_recenter :
    (∀ (r : ℚ) (initialCrop : CropArea) (deltaX deltaY : ℚ), r ≠ 0 →
       0 ≤ initialCrop.y +
             (initialCrop.height - max minSize (initialCrop.width + deltaX) / r) / 2 →
       initialCrop.y +
             (initialCrop.height - max minSize (initialCrop.width + deltaX) / r) / 2
         ≤ containerHeight - minSize →
       (handleMouseMoveResize .e (some r) initialCrop deltaX deltaY).y =
         initialCrop.y +
           (initialCrop.height - max minSize (initialCrop.width + deltaX) / r) / 2) ∧
    (∀ (r : ℚ) (initialCrop : CropArea) (deltaX deltaY : ℚ), r ≠ 0 →
       0 ≤ initialCrop.y +
             (initialCrop.height - max minSize (initialCrop.width - deltaX) / r) / 2 →
       initialCrop.y +
             (initialCrop.height - max minSize (initialCrop.width - deltaX) / r) / 2
         ≤ containerHeight - minSize →
       (handleMouseMoveResize .w (some r) initialCrop deltaX deltaY).y =
         initialCrop.y +
           (initialCrop.height - max minSize (initialCrop.width - deltaX) / r) / 2) := by
  constructor
  · intro r initialCrop deltaX deltaY hr h0 h1
    have ht := ratioTruthy_some hr
    simp +decide only [handleMouseMoveResize, resizeRaw, clampBounds,
      constrainToRatio, ht, if_neg hr, if_true, if_false]
    rw [min_eq_right h1, max_eq_right h0]
  · intro r initialCrop deltaX deltaY hr h0 h1
    have ht := ratioTruthy_some hr
    simp +decide only [handleMouseMoveResize, resizeRaw, clampBounds,
      constrainToRatio, ht, if_neg hr, if_true, if_false]
    rw [min_eq_right h1, max_eq_right h0]

/-- C10, witness: the recentering theorem applied to the east handle with
ratio 1, dragging the default rectangle right by 50: the recentered y is
75 + (225 - 350) / 2 = 12.5, inside the clamp range. -/
theorem claim_C10_east_west_recenter_witness :
    (handleMouseMoveResize .e (some 1) ⟨100, 75, 300, 225⟩ 50 0).y =
      (75 : ℚ) + (225 - max minSize (300 + 50) / 1) / 2 :=
  claim_C10_east_west_recenter.1 1 ⟨100, 75, 300, 225⟩ 50 0 (by norm_num)
    (by norm_num [minSize, max_def])
    (by norm_num [minSize, containerHeight, max_def])

/-- C6: every successful image load resets the session state: the crop
rectangle becomes the default centered rectangle (100, 75, 300, 225), zoom
becomes 1, rotation becomes 0, the selected ratio becomes the Free entry,
and the loaded image is installed.  This holds for the file-upload path,
the URL path and the sample-image path. -/
theorem claim_C6_load_resets :
    (∀ (s : SessionState) (fileType fileName dataUrl : String),
       typeStartsWithImage fileType = true →
       (handleFileUpload s fileType fileName (.success dataUrl)).cropArea =
           ⟨100, 75, 300, 225⟩ ∧
       (handleFileUpload s fileType fileName (.success dataUrl)).zoom = 1 ∧
       (handleFileUpload s fileType fileName (.success dataUrl)).rotation = 0 ∧
       (handleFileUpload s fileType fileName (.success dataUrl)).selectedRatio =
           ⟨"Free", none⟩ ∧
       (handleFileUpload s fileType fileName (.success dataUrl)).imageUrl =
           some dataUrl) ∧
    (∀ s : SessionState, urlInputBlank s.urlInput = false →
       (handleUrlSubmit s true).cropArea = ⟨100, 75, 300, 225⟩ ∧
       (handleUrlSubmit s true).zoom = 1 ∧
       (handleUrlSubmit s true).rotation = 0 ∧
       (handleUrlSubmit s true).selectedRatio = ⟨"Free", none⟩ ∧
       (handleUrlSubmit s true).imageUrl = some s.urlInput) ∧
    (∀ (s : SessionState) (sampleUrl : String),
       (loadSampleImage s sampleUrl).cropArea = ⟨100, 75, 300, 225⟩ ∧
       (loadSampleImage s sampleUrl).zoom = 1 ∧
       (loadSampleImage s sampleUrl).rotation = 0 ∧
       (loadSampleImage s sampleUrl).selectedRatio = ⟨"Free", none⟩ ∧
       (loadSampleImage s sampleUrl).imageUrl = some sampleUrl) := by
  refine ⟨?_, ?_, ?_⟩
  · intro s fileType fileName dataUrl h
    simp [handleFileUpload, resetCrop, aspectRatios, h]
  · intro s h
    simp [handleUrlSubmit, resetCrop, aspectRatios, h]
  · intro s sampleUrl
    simp [loadSampleImage, resetCrop, aspectRatios]

/-- C6, witness: the reset theorem applied to a concrete editing session,
a PNG file upload and a URL load. -/
theorem claim_C6_load_resets_witness :
    (handleFileUpload
        ⟨some "old", "old", none, "u", true, 2, 45, ⟨0, 0, 60, 60⟩, ⟨"1:1", some 1⟩⟩
        "image/png" "photo.png" (.success "data")).cropArea = ⟨100, 75, 300, 225⟩ ∧
    (handleUrlSubmit
        ⟨some "old", "old", none, "u", true, 2, 45, ⟨0, 0, 60, 60⟩, ⟨"1:1", some 1⟩⟩
        true).zoom = 1 :=
  ⟨(claim_C6_load_resets.1 _ "image/png" "photo.png" "data" (by decide)).1,
   (claim_C6_load_resets.2.1
      ⟨some "old", "old", none, "u", true, 2, 45, ⟨0, 0, 60, 60⟩, ⟨"1:1", some 1⟩⟩
      (by decide)).2.1⟩

/-- C7: failed image loads are atomic: a rejected MIME type, a file-read
failure, or a URL load failure (including the blank-URL no-op) leaves the
crop rectangle, zoom, rotation, selected ratio and currently loaded image
unchanged, so the state machine stays in its prior state. -/
theorem claim_C7_failed_load_preserves :
    (∀ (s : SessionState) (fileType fileName : String) (res : FileReadResult),
       typeStartsWithImage fileType = false →
       preservesEditState (handleFileUpload s fileType fileName res) s) ∧
    (∀ (s : SessionState) (fileType fileName : String),
       preservesEditState (handleFileUpload s fileType fileName .failure) s) ∧
    (∀ s : SessionState, preservesEditState (handleUrlSubmit s false) s) := by
  refine ⟨?_, ?_, ?_⟩
  · intro s fileType fileName res h
    simp [handleFileUpload, preservesEditState, h]
  · intro s fileType fileName
    by_cases h : typeStartsWithImage fileType <;>
      simp [handleFileUpload, preservesEditState, h]
  · intro s
    by_cases h : urlInputBlank s.urlInput <;>
      simp [handleUrlSubmit, preservesEditState, h]

/-- C7, witness: the preservation theorem applied to a concrete editing
session and a rejected text file. -/
theorem claim_C7_failed_load_preserves_witness :
    preservesEditState
      (handleFileUpload
        ⟨some "old", "old", none, "u", true, 2, 45, ⟨0, 0, 60, 60⟩, ⟨"1:1", some 1⟩⟩
        "text/plain" "notes.txt" (.success "data"))
      ⟨some "old", "old", none, "u", true, 2, 45, ⟨0, 0, 60, 60⟩, ⟨"1:1", some 1⟩⟩ :=
  claim_C7_failed_load_preserves.1 _ "text/plain" "notes.txt" (.success "data")
    (by decide)

/-- C8: applyAspectRatio is idempotent: with a constrained positive ratio,
applying it twice in a row from a rectangle satisfying the Rectangle
invariants yields the same rectangle as applying it once; with the
unconstrained Free ratio the rectangle is unchanged, so idempotence holds
trivially. -/
theorem claim_C8_idempotent :
    (∀ (r : ℚ) (c : CropArea), 0 < r → RectInvariant c →
       applyAspectRatio (some r) (applyAspectRatio (some r) c) =
         applyAspectRatio (some r) c) ∧
    (∀ c : CropArea, applyAspectRatio none c = c) := by
  constructor
  · intro r c hr hinv
    obtain ⟨_, _, hx, _, hxw, _⟩ := hinv
    have hwc : c.width ≤ containerWidth := by linarith
    obtain ⟨p1, p2, p3, p4, p5, p6, p7⟩ := applyAspectRatio_some_props r c hr hwc
    exact applyAspectRatio_fixedPoint r _ hr p1 p2 p3 p4 p5 p6 p7
  · intro c
    rfl

/-- C8, witness: idempotence applied to the default rectangle and the
ratio 1. -/
theorem claim_C8_idempotent_witness :
    applyAspectRatio (some 1) (applyAspectRatio (some 1) ⟨100, 75, 300, 225⟩) =
      applyAspectRatio (some 1) ⟨100, 75, 300, 225⟩ :=
  claim_C8_idempotent.1 1 ⟨100, 75, 300, 225⟩ (by norm_num)
    (by simp only [RectInvariant, containerWidth, containerHeight, minSize]; norm_num)
